import Mathlib

/-!
Shallow embedding of the swatch-market-price-fetcher repository
(src/utils.py and src/main.py) and proofs about its price-extraction and
aggregation pipeline.

Modelling conventions:
* Python strings are `List Char`; `str.strip`, `str.split`, `str.replace`
  and `str.lower` are modelled character by character.
* Python floats are `ℚ` (the spec treats prices as decimals); `round(x, 2)`
  is rounding to two decimal places with ties to even, as Python rounds.
* Functions that can raise return `Except PyErr _`; the exceptions that
  matter are `IndexError` (from `split()[0]` on whitespace-only text) and
  `ValueError` (from `int()` on an unparseable quantity).  A `try/except
  ValueError` in the source is modelled by the corresponding branch.
* An HTML document is modelled as the list of candidate result fragments
  that `find_all("div", {"class": "s-item__info clearfix"})` yields; each
  fragment carries the texts of its heading-role spans and of its price
  span (none when the span is absent).
* The HTTP session is a function from the endpoint URL to a response;
  logging is a side channel and is not modelled.
-/

namespace Swatch

/-- ASCII whitespace, modelling the whitespace notion of Python's
`str.strip()` and `str.split()`. -/
def isPySpace (c : Char) : Bool :=
  c == ' ' || c == '\t' || c == '\n' || c == '\r' || c == '\x0b' || c == '\x0c'

/-- Model of Python `str.strip()`: drop leading and trailing whitespace. -/
def stripChars (l : List Char) : List Char :=
  (l.dropWhile isPySpace).rdropWhile isPySpace

/-- Model of `str.replace(" ", "", 1)`: remove the first space, if any. -/
def removeFirstSpace : List Char → List Char
  | [] => []
  | c :: cs => if c == ' ' then cs else c :: removeFirstSpace cs

/-- Model of `str.replace(" ", "%20")`: replace every space by `%20`. -/
def encodeSpaces : List Char → List Char
  | [] => []
  | c :: cs => if c == ' ' then '%' :: '2' :: '0' :: encodeSpaces cs else c :: encodeSpaces cs

/-- utils.format_watch_reference: strip surrounding whitespace, remove the
first space, percent-encode the remaining spaces. -/
def format_watch_reference (reference : List Char) : List Char :=
  encodeSpaces (removeFirstSpace (stripChars reference))

/-- Model of Python `str.lower()` (ASCII case folding). -/
def lowerStr (l : List Char) : List Char := l.map Char.toLower

/-- Model of the Python substring test `w in s`. -/
def containsSub (w s : List Char) : Bool := decide (w <:+: s)

/-- utils.any_word_in_strings: does any of the words occur as a substring
of any of the lowercased strings? -/
def any_word_in_strings (words : List (List Char)) (strings : List (List Char)) : Bool :=
  strings.any fun s => words.any fun w => containsSub w (lowerStr s)

/-- Helper for `pySplit`: walk the characters, accumulating the current
token reversed. -/
def pySplitAux : List Char → List Char → List (List Char)
  | [], acc => if acc.isEmpty then [] else [acc.reverse]
  | c :: cs, acc =>
    if isPySpace c then
      if acc.isEmpty then pySplitAux cs [] else acc.reverse :: pySplitAux cs []
    else pySplitAux cs (c :: acc)

/-- Model of Python `str.split()` with no argument: split on runs of
whitespace, discarding empty tokens. -/
def pySplit (l : List Char) : List (List Char) := pySplitAux l []

/-- Numeric value of a run of decimal digit characters. -/
def digitsToNat (ds : List Char) : ℕ :=
  ds.foldl (fun n c => 10 * n + (c.toNat - 48)) 0

/-- Round a rational to an integer with ties to even, as Python `round()`
rounds. -/
def pyRound (q : ℚ) : ℤ :=
  if q - ⌊q⌋ < 1/2 then ⌊q⌋
  else if 1/2 < q - ⌊q⌋ then ⌊q⌋ + 1
  else if ⌊q⌋ % 2 = 0 then ⌊q⌋ else ⌊q⌋ + 1

/-- Model of Python `round(x, 2)`. -/
def round2 (q : ℚ) : ℚ := (pyRound (q * 100) : ℚ) / 100

/-- Split an optional leading sign off a character list. -/
def splitSign : List Char → ℤ × List Char
  | '+' :: r => (1, r)
  | '-' :: r => (-1, r)
  | l => (1, l)

/-- Model of Python `float()` on finite decimal literals: optional sign,
digits with at most one decimal point and at least one digit, optional
decimal exponent.  Returns none when the text is not such a literal
(Python would raise ValueError; the non-finite literals inf and nan have
no rational value and are out of scope of the model). -/
def pyFloat (l : List Char) : Option ℚ :=
  let sl := splitSign l
  let ip := sl.2.takeWhile Char.isDigit
  let r1 := sl.2.dropWhile Char.isDigit
  let fpr :=
    match r1 with
    | '.' :: r => (r.takeWhile Char.isDigit, r.dropWhile Char.isDigit)
    | _ => ([], r1)
  if ip.isEmpty && fpr.1.isEmpty then none
  else
    let mant : ℚ := (sl.1 : ℚ) * ((digitsToNat ip : ℚ) + (digitsToNat fpr.1 : ℚ) / (10 : ℚ) ^ fpr.1.length)
    match fpr.2 with
    | [] => some mant
    | e :: r3 =>
      if e == 'e' || e == 'E' then
        let se := splitSign r3
        let ed := se.2.takeWhile Char.isDigit
        let r5 := se.2.dropWhile Char.isDigit
        if ed.isEmpty || !r5.isEmpty then none
        else some (mant * (10 : ℚ) ^ (se.1 * (digitsToNat ed : ℤ)))
      else none

/-- Model of Python `int()` on decimal strings: optional surrounding
whitespace, optional sign, one or more digits; none when the text is not
of this shape (Python would raise ValueError). -/
def pyInt (l : List Char) : Option ℤ :=
  let t := stripChars l
  let st := splitSign t
  if st.2.isEmpty || !st.2.all Char.isDigit then none
  else some (st.1 * (digitsToNat st.2 : ℤ))

/-- The Python exceptions that can escape the modelled functions. -/
inductive PyErr where
  | indexError : PyErr
  | valueError : PyErr
deriving DecidableEq

/-- One candidate result fragment of a search page: the texts of its
heading-role spans and the text of its price span (none when the span is
absent). -/
structure Post where
  headings : List (List Char)
  priceSpan : Option (List Char)
deriving DecidableEq

/-- main.keyword_list. -/
def keyword_list : List (List Char) :=
  ["swatch".toList, "watch".toList, "reloj".toList]

/-- The cleaning applied to the first token of the price text:
`.replace(".", "").replace(",", ".")`. -/
def cleanPriceToken (tok : List Char) : List Char :=
  (tok.filter fun c => c != '.').map fun c => if c == ',' then '.' else c

/-- main.parse_price: keyword-classify the fragment by its headings, then
parse its price span text.  `split()[0]` raises IndexError on non-empty
whitespace-only text; a failed `float()` is caught as ValueError and
yields no price. -/
def parse_price (post : Post) : Except PyErr (Option ℚ) :=
  if !any_word_in_strings keyword_list post.headings then .ok none
  else
    match post.priceSpan with
    | none => .ok none
    | some t =>
      if t.isEmpty then .ok none
      else
        match pySplit t with
        | [] => .error .indexError
        | tok :: _ =>
          match pyFloat (cleanPriceToken tok) with
          | some x => .ok (some (round2 x))
          | none => .ok none

/-- Map a fallible function over a list left to right, stopping at the
first raised exception, modelling a Python list comprehension or loop. -/
def mapExcept (f : α → Except PyErr β) : List α → Except PyErr (List β)
  | [] => .ok []
  | x :: xs =>
    match f x with
    | .error e => .error e
    | .ok y =>
      match mapExcept f xs with
      | .error e => .error e
      | .ok ys => .ok (y :: ys)

/-- main.parse_ebay_results: the document is its list of candidate
fragments; return the successfully parsed prices in order together with
the candidate count. -/
def parse_ebay_results (watch_posts : List Post) : Except PyErr (List ℚ × ℕ) :=
  let post_count := watch_posts.length
  if post_count == 0 then .ok ([], 0)
  else
    match mapExcept parse_price watch_posts with
    | .error e => .error e
    | .ok price_list => .ok (price_list.filterMap id, post_count)

/-- main.calculate_average: the mean rounded to 2 places, none for an
empty list. -/
def calculate_average (prices : List ℚ) : Option ℚ :=
  match prices with
  | [] => none
  | _ => some (round2 (prices.sum / (prices.length : ℚ)))

/-- An HTTP response: its status code and the candidate fragments of its
body. -/
structure Response where
  status_code : ℕ
  text : List Post

/-- A session maps an endpoint URL to a response. -/
abbrev Session : Type := List Char → Response

/-- The endpoint URL built by main.get_ebay_results: the sold/completed
filter flag is appended exactly when `check_active` is true. -/
def build_endpoint (watch_reference : List Char) (check_active : Bool) : List Char :=
  let endpoint :=
    "https://www.ebay.es/sch/i.html?_nkw=".toList ++ format_watch_reference watch_reference ++
      "&_in_kw=3&_sacat=281".toList
  if check_active then endpoint ++ "&LH_Sold=1&LH_Complete=1".toList else endpoint

/-- main.get_ebay_results: fetch the endpoint; on a non-200 status return
`(none, 0)`, otherwise parse the body. -/
def get_ebay_results (session : Session) (watch_reference : List Char) (check_active : Bool) :
    Except PyErr (Option (List ℚ) × ℕ) :=
  let response := session (build_endpoint watch_reference check_active)
  if response.status_code ≠ 200 then .ok (none, 0)
  else
    match parse_ebay_results response.text with
    | .error e => .error e
    | .ok pr => .ok (some pr.1, pr.2)

/-- Python truthiness of an optional float: `None` and `0.0` are falsy. -/
def truthyQ : Option ℚ → Bool
  | none => false
  | some x => x != 0

/-- Python truthiness of an optional list: `None` and `[]` are falsy. -/
def truthyList : Option (List ℚ) → Bool
  | some (_ :: _) => true
  | _ => false

/-- The per-segment average of main.process_watch:
`calculate_average(results, reference) if results else None`. -/
def avg_of_results (results : Option (List ℚ)) : Option ℚ :=
  if truthyList results then calculate_average (results.getD []) else none

/-- The blending step of main.process_watch:
`round((avg_active + avg_sold) / 2, 2)` if both are truthy, otherwise
`avg_sold or avg_active`. -/
def blend (avg_active avg_sold : Option ℚ) : Option ℚ :=
  if truthyQ avg_active && truthyQ avg_sold then
    some (round2 ((avg_active.getD 0 + avg_sold.getD 0) / 2))
  else if truthyQ avg_sold then avg_sold else avg_active

/-- The line-value step of main.process_watch:
`round(total_avg * int(quantity), 2) if total_avg else None`, where
`int()` raises ValueError on an unparseable quantity. -/
def compute_total_value (total_avg : Option ℚ) (quantity : List Char) : Except PyErr (Option ℚ) :=
  if truthyQ total_avg then
    match pyInt quantity with
    | some n => .ok (some (round2 (total_avg.getD 0 * (n : ℚ))))
    | none => .error .valueError
  else .ok none

/-- The record built by main.process_watch for one catalog row. -/
structure WatchInfo where
  year : List Char
  reference : List Char
  name : List Char
  quantity : List Char
  avg_active : Option ℚ
  avg_sold : Option ℚ
  total_avg : Option ℚ
  total_value : Option ℚ
  active_posts_found : ℕ
  sold_posts_found : ℕ
deriving DecidableEq

/-- A catalog row: (year, reference, name, quantity), all strings. -/
abbrev WatchData : Type := List Char × List Char × List Char × List Char

/-- main.process_watch: two fetches (the `check_active=True` one first),
per-segment averages with Python truthiness, the blend, and the line
value.  Any exception raised inside propagates. -/
def process_watch (session : Session) (watch_data : WatchData) : Except PyErr WatchInfo :=
  match get_ebay_results session watch_data.2.1 true with
  | .error e => .error e
  | .ok (active_results, active_posts) =>
    match get_ebay_results session watch_data.2.1 false with
    | .error e => .error e
    | .ok (sold_results, sold_posts) =>
      let avg_active := avg_of_results active_results
      let avg_sold := avg_of_results sold_results
      let total_avg := blend avg_active avg_sold
      match compute_total_value total_avg watch_data.2.2.2 with
      | .error e => .error e
      | .ok total_value =>
        .ok ⟨watch_data.1, watch_data.2.1, watch_data.2.2.1, watch_data.2.2.2,
          avg_active, avg_sold, total_avg, total_value, active_posts, sold_posts⟩

/-- main.calculate_collection_value: process the records in order,
collecting the per-record results; an exception from any record
propagates and aborts the batch.  No aggregate value is computed. -/
def calculate_collection_value (session : Session) (data : List WatchData) :
    Except PyErr (List WatchInfo) :=
  mapExcept (process_watch session) data

/-- The ok value of an Except, when there is one. -/
def exOk : Except PyErr α → Option α
  | .ok a => some a
  | .error _ => none

/-- A sample reference. -/
def refGs : List Char := "gs100".toList

/-- A fragment whose heading matches the keywords, with the given price
text. -/
def watchPost (price : String) : Post := ⟨["swatch gs100".toList], some price.toList⟩

/-- A fragment whose heading matches no keyword. -/
def bandPost : Post := ⟨["bracelet band".toList], some "10".toList⟩

/-- A session serving one response at the sold-filtered endpoint of
`refGs` and another at every other endpoint. -/
def sessionSplit (flagged unflagged : Response) : Session := fun endpoint =>
  if endpoint == build_endpoint refGs true then flagged else unflagged

/-- A catalog row for `refGs` with the given quantity text. -/
def wdQ (q : String) : WatchData := ("1990".toList, refGs, "x".toList, q.toList)

/-- Candidate fragments: one priced watch, one non-watch, one watch whose
price text does not parse. -/
def postsC10 : List Post := [watchPost "100", bandPost, watchPost "N/A"]

/-- A session whose sold-filtered page prices one listing and whose other
page fails to fetch. -/
def sessC3 : Session := sessionSplit ⟨200, [watchPost "100"]⟩ ⟨500, []⟩

/-- A session whose sold-filtered page fails to fetch and whose other page
prices one listing. -/
def sessC8 : Session := sessionSplit ⟨500, []⟩ ⟨200, [watchPost "100"]⟩

/-- A session whose sold-filtered page prices one listing and whose other
page holds only a non-watch fragment. -/
def sessC6 : Session := sessionSplit ⟨200, [watchPost "100"]⟩ ⟨200, [bandPost]⟩

/-- Two catalog rows: one priced, one that matches nothing. -/
def dataC6 : List WatchData := [wdQ "2", ("1991".toList, "zzz".toList, "y".toList, "1".toList)]

/-! ### Helper lemmas about the reference formatter -/

theorem space_not_mem_encodeSpaces (l : List Char) : ' ' ∉ encodeSpaces l := by
  induction l with
  | nil => simp [encodeSpaces]
  | cons c cs ih =>
    by_cases hc : c == ' '
    · simp only [encodeSpaces, if_pos hc, List.mem_cons, not_or]
      exact ⟨by decide, by decide, by decide, ih⟩
    · simp only [encodeSpaces, if_neg hc, List.mem_cons, not_or]
      refine ⟨fun h => ?_, ih⟩
      subst h
      simp at hc

theorem removeFirstSpace_of_not_mem {l : List Char} (h : ' ' ∉ l) : removeFirstSpace l = l := by
  induction l with
  | nil => rfl
  | cons c cs ih =>
    simp only [List.mem_cons, not_or] at h
    simp only [removeFirstSpace]
    rw [if_neg (by simp [Ne.symm h.1]), ih h.2]

theorem encodeSpaces_of_not_mem {l : List Char} (h : ' ' ∉ l) : encodeSpaces l = l := by
  induction l with
  | nil => rfl
  | cons c cs ih =>
    simp only [List.mem_cons, not_or] at h
    simp only [encodeSpaces]
    rw [if_neg (by simp [Ne.symm h.1]), ih h.2]

theorem encodeSpaces_eq_nil_iff {l : List Char} : encodeSpaces l = [] ↔ l = [] := by
  cases l with
  | nil => simp [encodeSpaces]
  | cons c cs =>
    simp only [encodeSpaces]
    by_cases hc : c == ' ' <;> simp [hc]

theorem removeFirstSpace_eq_nil_iff {l : List Char} :
    removeFirstSpace l = [] ↔ l = [] ∨ l = [' '] := by
  cases l with
  | nil => simp [removeFirstSpace]
  | cons c cs =>
    simp only [removeFirstSpace]
    by_cases hc : c == ' '
    · have hce : c = ' ' := by simpa using hc
      subst hce
      simp
    · have hce : c ≠ ' ' := by simpa using hc
      simp [hc, hce]

theorem rdropWhile_cons_self_iff {c : Char} {cs : List Char} (h : cs ≠ []) :
    (List.rdropWhile isPySpace (c :: cs) = c :: cs) ↔ List.rdropWhile isPySpace cs = cs := by
  rw [List.rdropWhile_eq_self_iff, List.rdropWhile_eq_self_iff]
  constructor
  · intro H hl
    have h2 := H (List.cons_ne_nil c cs)
    rwa [List.getLast_cons hl] at h2
  · intro H _
    rw [List.getLast_cons h]
    exact H h

theorem rdropWhile_removeFirstSpace {l : List Char}
    (h : List.rdropWhile isPySpace l = l) :
    List.rdropWhile isPySpace (removeFirstSpace l) = removeFirstSpace l := by
  induction l with
  | nil => simp [removeFirstSpace]
  | cons c cs ih =>
    rcases eq_or_ne cs [] with rfl | hne
    · by_cases hc : c = ' '
      · subst hc
        exfalso
        have h2 := List.rdropWhile_eq_self_iff.mp h (by simp)
        simp [isPySpace] at h2
      · simpa [removeFirstSpace, hc] using h
    · have hcs : List.rdropWhile isPySpace cs = cs := (rdropWhile_cons_self_iff hne).mp h
      by_cases hc : c = ' '
      · subst hc
        simpa [removeFirstSpace] using hcs
      · have hr := ih hcs
        rcases eq_or_ne (removeFirstSpace cs) [] with he | hne2
        · rcases removeFirstSpace_eq_nil_iff.mp he with rfl | rfl
          · exact absurd rfl hne
          · exfalso
            have h2 := List.rdropWhile_eq_self_iff.mp hcs (by simp)
            simp [isPySpace] at h2
        · simp only [removeFirstSpace, if_neg (by simp [hc] : ¬((c == ' ') = true))]
          exact (rdropWhile_cons_self_iff hne2).mpr hr

theorem rdropWhile_encodeSpaces {l : List Char}
    (h : List.rdropWhile isPySpace l = l) :
    List.rdropWhile isPySpace (encodeSpaces l) = encodeSpaces l := by
  induction l with
  | nil => simp [encodeSpaces]
  | cons c cs ih =>
    rcases eq_or_ne cs [] with rfl | hne
    · by_cases hc : c = ' '
      · subst hc
        exfalso
        have h2 := List.rdropWhile_eq_self_iff.mp h (by simp)
        simp [isPySpace] at h2
      · simpa [encodeSpaces, hc] using h
    · have hcs : List.rdropWhile isPySpace cs = cs := (rdropWhile_cons_self_iff hne).mp h
      have hr := ih hcs
      have henc : encodeSpaces cs ≠ [] := by
        simp [Ne, encodeSpaces_eq_nil_iff, hne]
      by_cases hc : c = ' '
      · subst hc
        simp only [encodeSpaces, if_pos (by decide : ((' ' == ' ') = true))]
        refine (rdropWhile_cons_self_iff (by simp)).mpr ?_
        refine (rdropWhile_cons_self_iff (by simp [henc])).mpr ?_
        exact (rdropWhile_cons_self_iff henc).mpr hr
      · simp only [encodeSpaces, if_neg (by simp [hc] : ¬((c == ' ') = true))]
        exact (rdropWhile_cons_self_iff henc).mpr hr

theorem dropWhile_stripChars_self (s : List Char) :
    List.dropWhile isPySpace (stripChars s) = stripChars s := by
  rw [List.dropWhile_eq_self_iff]
  intro hl
  have hpre : (List.dropWhile isPySpace s).rdropWhile isPySpace <+: List.dropWhile isPySpace s :=
    List.rdropWhile_prefix _ _
  have hu : List.dropWhile isPySpace (List.dropWhile isPySpace s) = List.dropWhile isPySpace s :=
    List.dropWhile_idempotent _ _
  have hl2 : 0 < (List.dropWhile isPySpace s).length := lt_of_lt_of_le hl hpre.length_le
  have h0 := (List.dropWhile_eq_self_iff.mp hu) hl2
  have hget : (stripChars s).get ⟨0, hl⟩ = (List.dropWhile isPySpace s).get ⟨0, hl2⟩ := by
    have := hpre.getElem
      (show 0 < ((List.dropWhile isPySpace s).rdropWhile isPySpace).length from hl)
    simpa [stripChars, List.get_eq_getElem] using this
  rw [hget]
  exact h0

theorem rdropWhile_stripChars_self (s : List Char) :
    List.rdropWhile isPySpace (stripChars s) = stripChars s := by
  unfold stripChars
  exact List.rdropWhile_idempotent _ _

theorem dropWhile_removeFirstSpace {l : List Char}
    (h : List.dropWhile isPySpace l = l) :
    List.dropWhile isPySpace (removeFirstSpace l) = removeFirstSpace l := by
  cases l with
  | nil => simp [removeFirstSpace]
  | cons c cs =>
    have hc := (List.dropWhile_eq_self_iff.mp h) (by simp)
    simp only [List.get] at hc
    have hcs : c ≠ ' ' := by
      intro he
      subst he
      exact hc (by decide)
    simp only [removeFirstSpace, if_neg (by simp [hcs] : ¬((c == ' ') = true))]
    simp [List.dropWhile_cons, hc]

theorem dropWhile_encodeSpaces {l : List Char}
    (h : List.dropWhile isPySpace l = l) :
    List.dropWhile isPySpace (encodeSpaces l) = encodeSpaces l := by
  cases l with
  | nil => simp [encodeSpaces]
  | cons c cs =>
    have hc := (List.dropWhile_eq_self_iff.mp h) (by simp)
    simp only [List.get] at hc
    have hcs : c ≠ ' ' := by
      intro he
      subst he
      exact hc (by decide)
    simp only [encodeSpaces, if_neg (by simp [hcs] : ¬((c == ' ') = true))]
    simp [List.dropWhile_cons, hc]

theorem stripChars_format_self (s : List Char) :
    stripChars (format_watch_reference s) = format_watch_reference s := by
  have d3 : List.dropWhile isPySpace (format_watch_reference s) = format_watch_reference s :=
    dropWhile_encodeSpaces (dropWhile_removeFirstSpace (dropWhile_stripChars_self s))
  have r3 : List.rdropWhile isPySpace (format_watch_reference s) = format_watch_reference s :=
    rdropWhile_encodeSpaces (rdropWhile_removeFirstSpace (rdropWhile_stripChars_self s))
  unfold stripChars
  rw [d3, r3]

/-! ### Helper lemmas about extraction -/

theorem mapExcept_ok_length {f : α → Except PyErr β} :
    ∀ {l : List α} {ys : List β}, mapExcept f l = .ok ys → ys.length = l.length := by
  intro l
  induction l with
  | nil =>
    intro ys h
    simp only [mapExcept] at h
    cases h
    rfl
  | cons x xs ih =>
    intro ys h
    simp only [mapExcept] at h
    cases hf : f x with
    | error e => rw [hf] at h; cases h
    | ok y =>
      rw [hf] at h
      cases hm : mapExcept f xs with
      | error e => rw [hm] at h; cases h
      | ok zs =>
        rw [hm] at h
        cases h
        simp [ih hm]

theorem mapExcept_cons (f : α → Except PyErr β) (x : α) (xs : List α) :
    mapExcept f (x :: xs) =
      match f x with
      | .error e => .error e
      | .ok y =>
        match mapExcept f xs with
        | .error e => .error e
        | .ok ys => .ok (y :: ys) := rfl

/-! ### The claims -/

/-- C1: the spec claims the blended average is none iff both per-segment
averages are none, is round((a+b)/2, 2) when both are defined, and
otherwise equals whichever single average is defined, explicitly
including a defined average of 0.00.  The code instead tests Python
truthiness, under which a defined 0.0 counts as absent: blending none
with a sold average of 0.00 yields none, and blending a 0.00 active
average with a defined sold average yields the sold average alone rather
than the mean.  The third conjunct reaches the defect end to end through
process_watch: the sold page prices one listing at 0 and the record ends
with no blended average. -/
theorem C1_blend_zero_truthiness_bug :
    blend none (some 0) = none ∧
    blend (some 0) (some 100) = some 100 ∧
    exOk (process_watch (sessionSplit ⟨500, []⟩ ⟨200, [watchPost "0"]⟩) (wdQ "1")) =
      some ⟨"1990".toList, refGs, "x".toList, "1".toList, none, some 0, none, none, 0, 1⟩ := by
  refine ⟨by simp [blend, truthyQ], by simp [blend, truthyQ], ?_⟩
  simp +decide [process_watch, get_ebay_results, parse_ebay_results, mapExcept, parse_price,
    sessionSplit, wdQ, watchPost, refGs, build_endpoint, pySplit, pySplitAux, cleanPriceToken,
    pyFloat, splitSign, digitsToNat, round2, pyRound, avg_of_results, truthyList, truthyQ,
    calculate_average, blend, compute_total_value, pyInt, stripChars, List.rdropWhile,
    List.dropWhile, isPySpace, exOk]

/-- C2: the spec claims the line value is defined iff the blended average
is defined, including a blended average of 0.00, and then equals the
blended average times the quantity rounded to 2 places.  The code guards
the line value with `if total_avg`, which is false at 0.0, so a record
whose blended average is 0.00 gets line value None.  The second conjunct
reaches the defect end to end: the sold-filtered page prices one listing
at 0, the blended average is 0.00, and total_value is none. -/
theorem C2_line_value_zero_truthiness_bug :
    compute_total_value (some 0) "1".toList = .ok none ∧
    exOk (process_watch (sessionSplit ⟨200, [watchPost "0"]⟩ ⟨500, []⟩) (wdQ "1")) =
      some ⟨"1990".toList, refGs, "x".toList, "1".toList, some 0, none, some 0, none, 1, 0⟩ := by
  refine ⟨by simp [compute_total_value, truthyQ], ?_⟩
  simp +decide [process_watch, get_ebay_results, parse_ebay_results, mapExcept, parse_price,
    sessionSplit, wdQ, watchPost, refGs, build_endpoint, pySplit, pySplitAux, cleanPriceToken,
    pyFloat, splitSign, digitsToNat, round2, pyRound, avg_of_results, truthyList, truthyQ,
    calculate_average, blend, compute_total_value, pyInt, stripChars, List.rdropWhile,
    List.dropWhile, isPySpace, exOk]

/-- C3, counterexample: the claim says a record whose quantity does not
parse as an integer is skipped and never raises out of the record step.
At a record with quantity "two" whose surviving segment has a nonzero
average, int() raises ValueError, which escapes process_watch, and the
same error aborts the whole two-record batch of
calculate_collection_value, so the second record is never processed. -/
theorem C3_invalid_quantity_aborts_batch :
    process_watch sessC3 (wdQ "two") = .error .valueError ∧
    calculate_collection_value sessC3 [wdQ "two", wdQ "1"] = .error .valueError := by
  constructor <;>
    simp +decide [calculate_collection_value, process_watch, get_ebay_results,
      parse_ebay_results, mapExcept, parse_price, sessC3, sessionSplit, wdQ, watchPost, refGs,
      build_endpoint, pySplit, pySplitAux, cleanPriceToken, pyFloat, splitSign, digitsToNat,
      round2, pyRound, avg_of_results, truthyList, truthyQ, calculate_average, blend,
      compute_total_value, pyInt, stripChars, List.rdropWhile, List.dropWhile, isPySpace,
      exOk] <;>
    norm_num

/-- C3, amended: a record whose quantity does not parse as an integer
never gets a defined line value; when in addition its blended average is
truthy (defined and nonzero), int() raises ValueError, which escapes the
per-record valuation step (and therefore aborts the batch).  Only when
the blended average is falsy does the record complete, with line value
none. -/
theorem C3_amended_invalid_quantity :
    (∀ (session : Session) (wd : WatchData) (info : WatchInfo),
      pyInt wd.2.2.2 = none → process_watch session wd = .ok info → info.total_value = none) ∧
    (∀ (session : Session) (wd : WatchData) (ar : Option (List ℚ)) (ap : ℕ)
      (sr : Option (List ℚ)) (sp : ℕ),
      pyInt wd.2.2.2 = none →
      get_ebay_results session wd.2.1 true = .ok (ar, ap) →
      get_ebay_results session wd.2.1 false = .ok (sr, sp) →
      truthyQ (blend (avg_of_results ar) (avg_of_results sr)) = true →
      process_watch session wd = .error .valueError) := by
  constructor
  · intro session wd info h1 h2
    simp only [process_watch] at h2
    split at h2
    · cases h2
    · split at h2
      · cases h2
      · rename_i pa ha pb hb
        split at h2
        · cases h2
        · rename_i tv htv
          simp only [compute_total_value, h1] at htv
          split at htv
          · cases htv
          · cases htv
            cases h2
            rfl
  · intro session wd ar ap sr sp h1 hga hgs htr
    simp only [process_watch, hga, hgs, compute_total_value, htr, if_pos, h1]

/-- C3, witness for the amended claim at a concrete record. -/
theorem C3_amended_invalid_quantity_witness :
    pyInt ("two".toList) = none ∧
    process_watch sessC3 (wdQ "two") = .error .valueError :=
  ⟨by decide,
    C3_amended_invalid_quantity.2 sessC3 (wdQ "two") (some [100]) 1 none 0
      (by decide)
      (by
        simp +decide [get_ebay_results, parse_ebay_results, mapExcept, parse_price, sessC3,
          sessionSplit, watchPost, refGs, build_endpoint, pySplit, pySplitAux, cleanPriceToken,
          pyFloat, splitSign, digitsToNat, round2, pyRound]
        norm_num)
      (by
        simp +decide [get_ebay_results, sessC3, sessionSplit, refGs, build_endpoint])
      (by
        norm_num [blend, avg_of_results, truthyList, truthyQ, calculate_average, round2,
          pyRound])⟩

/-- C4, counterexample: the claim says a classified listing whose price
text does not parse, including whitespace-only text, yields no price and
never a thrown failure, with extraction continuing.  On a classified
fragment whose price span text is a single space, `split()` returns no
tokens and the `[0]` index raises IndexError, which `except ValueError`
does not catch; the error also propagates out of parse_ebay_results, so
the remaining fragment of the document is not processed. -/
theorem C4_whitespace_price_raises :
    parse_price ⟨["swatch gs100".toList], some " ".toList⟩ = .error .indexError ∧
    parse_ebay_results [⟨["swatch gs100".toList], some " ".toList⟩, watchPost "100"] =
      .error .indexError := by
  constructor <;>
    simp +decide [parse_price, parse_ebay_results, mapExcept, pySplit, pySplitAux, watchPost]

/-- C4, amended: for a classified fragment whose price text yields at
least one whitespace-delimited token that fails numeric parsing, the
listing contributes no price and no error, and a fragment that
contributes no price leaves the extraction of the remaining fragments
and the candidate count intact.  (Non-empty whitespace-only price text
instead raises IndexError, per the counterexample; empty price text is
skipped before any parse.) -/
theorem C4_amended_price_parse_failure :
    (∀ (p : Post) (t tok : List Char) (toks : List (List Char)),
      any_word_in_strings keyword_list p.headings = true →
      p.priceSpan = some t →
      pySplit t = tok :: toks →
      pyFloat (cleanPriceToken tok) = none →
      parse_price p = .ok none) ∧
    (∀ (p : Post) (rest : List Post) (prices : List ℚ) (n : ℕ),
      parse_price p = .ok none →
      parse_ebay_results rest = .ok (prices, n) →
      parse_ebay_results (p :: rest) = .ok (prices, n + 1)) := by
  constructor
  · intro p t tok toks hw hp hs hf
    have ht : t.isEmpty = false := by
      cases t with
      | nil => cases hs
      | cons c cs => rfl
    simp [parse_price, hw, hp, ht, hs, hf]
  · intro p rest prices n hp hr
    cases rest with
    | nil =>
      have h2 : prices = [] ∧ n = 0 := by
        simpa [parse_ebay_results] using hr.symm
      obtain ⟨rfl, rfl⟩ := h2
      simp [parse_ebay_results, mapExcept, hp]
    | cons q qs =>
      unfold parse_ebay_results at hr
      rw [if_neg (by simp)] at hr
      cases hm : mapExcept parse_price (q :: qs) with
      | error e => rw [hm] at hr; cases hr
      | ok pl =>
        rw [hm] at hr
        cases hr
        have hmm : mapExcept parse_price (p :: q :: qs) = .ok (none :: pl) := by
          rw [mapExcept_cons, hp]
          simp only [hm]
        unfold parse_ebay_results
        rw [if_neg (by simp), hmm]
        simp

/-- C4, witness for the amended claim: a classified fragment with price
text "N/A" contributes no price, and extraction of a two-fragment
document still returns the other fragment's price with both candidates
counted. -/
theorem C4_amended_price_parse_failure_witness :
    any_word_in_strings keyword_list (watchPost "N/A").headings = true ∧
    (watchPost "N/A").priceSpan = some ("N/A".toList) ∧
    pySplit ("N/A".toList) = ["N/A".toList] ∧
    pyFloat (cleanPriceToken ("N/A".toList)) = none ∧
    parse_price (watchPost "N/A") = .ok none ∧
    parse_ebay_results [watchPost "N/A", watchPost "100"] = .ok ([100], 2) := by
  refine ⟨by decide, by decide, by decide, by decide, ?_, ?_⟩
  · exact C4_amended_price_parse_failure.1 (watchPost "N/A") ("N/A".toList) ("N/A".toList) []
      (by decide) (by decide) (by decide) (by decide)
  · refine C4_amended_price_parse_failure.2 (watchPost "N/A") [watchPost "100"] [100] 1
      (C4_amended_price_parse_failure.1 (watchPost "N/A") ("N/A".toList) ("N/A".toList) []
        (by decide) (by decide) (by decide) (by decide)) ?_
    simp +decide [parse_ebay_results, mapExcept, parse_price, watchPost, pySplit, pySplitAux,
      cleanPriceToken, pyFloat, splitSign, digitsToNat, round2, pyRound]
    norm_num

/-- C5: the claim says the sold-listings query, and only it, carries the
sold/completed filter flag, and that the active average is computed from
the active-listings page.  The code does issue two fetches per record
over the same query shape, but it appends the `&LH_Sold=1&LH_Complete=1`
flag when `check_active` is True — the fetch whose result it stores as
the ACTIVE average — so the labels are swapped: avg_active is computed
from the sold-filtered page and avg_sold from the unfiltered one.  The
second conjunct shows it end to end: the sold-filtered page prices 100
and the unfiltered page 200, and the record reports avg_active = 100,
avg_sold = 200. -/
theorem C5_segment_labels_swapped_bug :
    (∀ r : List Char,
      build_endpoint r true = build_endpoint r false ++ "&LH_Sold=1&LH_Complete=1".toList) ∧
    exOk (process_watch (sessionSplit ⟨200, [watchPost "100"]⟩ ⟨200, [watchPost "200"]⟩)
        (wdQ "2")) =
      some ⟨"1990".toList, refGs, "x".toList, "2".toList,
        some 100, some 200, some 150, some 300, 1, 1⟩ := by
  refine ⟨fun r => by simp [build_endpoint], ?_⟩
  simp +decide [process_watch, get_ebay_results, parse_ebay_results, mapExcept, parse_price,
    sessionSplit, wdQ, watchPost, refGs, build_endpoint, pySplit, pySplitAux, cleanPriceToken,
    pyFloat, splitSign, digitsToNat, round2, pyRound, avg_of_results, truthyList, truthyQ,
    calculate_average, blend, compute_total_value, pyInt, stripChars, List.rdropWhile,
    List.dropWhile, isPySpace, exOk]
  norm_num

/-- C6: the claim says the run produces a collection summary with
total_value the sum of the defined line values, found_count the number of
defined ones and total_count the number of records.
calculate_collection_value computes no such summary: it returns exactly
the list of per-record results (first conjunct, definitional), and on a
concrete two-record batch — one record with line value 200.00 and one
not-found record — the run's whole output is that list; no total, found
count or record count is computed anywhere in the sources. -/
theorem C6_no_collection_summary_bug :
    (∀ (session : Session) (data : List WatchData),
      calculate_collection_value session data = mapExcept (process_watch session) data) ∧
    (exOk (calculate_collection_value sessC6 dataC6)).map (List.map WatchInfo.total_value) =
      some [some 200, none] := by
  refine ⟨fun _ _ => rfl, ?_⟩
  simp +decide [calculate_collection_value, process_watch, get_ebay_results, parse_ebay_results,
    mapExcept, parse_price, sessC6, dataC6, sessionSplit, wdQ, watchPost, bandPost, refGs,
    build_endpoint, pySplit, pySplitAux, cleanPriceToken, pyFloat, splitSign, digitsToNat,
    round2, pyRound, avg_of_results, truthyList, truthyQ, calculate_average, blend,
    compute_total_value, pyInt, stripChars, List.rdropWhile, List.dropWhile, isPySpace, exOk]
  norm_num

/-- C7: calculate_average of an empty price list is none, and of a
non-empty list of N prices is their sum divided by N, rounded to 2
decimal places. -/
theorem C7_calculate_average_spec :
    calculate_average ([] : List ℚ) = none ∧
    ∀ prices : List ℚ, prices ≠ [] →
      calculate_average prices = some (round2 (prices.sum / (prices.length : ℚ))) := by
  refine ⟨rfl, ?_⟩
  intro prices h
  cases prices with
  | nil => exact absurd rfl h
  | cons p ps => rfl

/-- C7, witness at the concrete list [1, 2]. -/
theorem C7_calculate_average_witness :
    ([(1 : ℚ), 2] ≠ []) ∧
    calculate_average [(1 : ℚ), 2] =
      some (round2 (([(1 : ℚ), 2].sum) / (([(1 : ℚ), 2].length : ℚ)))) :=
  ⟨by simp, C7_calculate_average_spec.2 _ (by simp)⟩

/-- C8, counterexample: the claim says that whenever the fetch for one
segment returns a non-success status, the per-record valuation still
completes without aborting the batch.  At a record whose quantity text is
"dos", with the sold-filtered fetch failing and the other page pricing
one listing at 100, the surviving average is truthy and int() raises
ValueError, so the valuation does not complete. -/
theorem C8_fetch_failure_not_always_recovered :
    process_watch sessC8 (wdQ "dos") = .error .valueError := by
  simp +decide [process_watch, get_ebay_results, parse_ebay_results, mapExcept, parse_price,
    sessC8, sessionSplit, wdQ, watchPost, refGs, build_endpoint, pySplit, pySplitAux,
    cleanPriceToken, pyFloat, splitSign, digitsToNat, round2, pyRound, avg_of_results,
    truthyList, truthyQ, calculate_average, blend, compute_total_value, pyInt, stripChars,
    List.rdropWhile, List.dropWhile, isPySpace]
  norm_num

/-- C8, amended: for every record whose quantity parses as an integer, if
the fetch for one segment returns a non-success status then that segment
contributes average none and a zero posts count, the other segment's
fetch and extraction are still performed and its average used (provided
its own page extracts without raising), and the valuation completes with
an ok result.  Both directions are stated: the first for the
sold-filtered fetch failing, the second for the unfiltered one. -/
theorem C8_amended_fetch_failure_recovered :
    (∀ (session : Session) (wd : WatchData) (z : ℤ) (sr : Option (List ℚ)) (sp : ℕ),
      pyInt wd.2.2.2 = some z →
      (session (build_endpoint wd.2.1 true)).status_code ≠ 200 →
      get_ebay_results session wd.2.1 false = .ok (sr, sp) →
      ∃ info, process_watch session wd = .ok info ∧ info.avg_active = none ∧
        info.avg_sold = avg_of_results sr ∧ info.active_posts_found = 0 ∧
        info.sold_posts_found = sp) ∧
    (∀ (session : Session) (wd : WatchData) (z : ℤ) (ar : Option (List ℚ)) (ap : ℕ),
      pyInt wd.2.2.2 = some z →
      (session (build_endpoint wd.2.1 false)).status_code ≠ 200 →
      get_ebay_results session wd.2.1 true = .ok (ar, ap) →
      ∃ info, process_watch session wd = .ok info ∧ info.avg_sold = none ∧
        info.avg_active = avg_of_results ar ∧ info.sold_posts_found = 0 ∧
        info.active_posts_found = ap) := by
  constructor
  · intro session wd z sr sp hq hst hgs
    have hga : get_ebay_results session wd.2.1 true = .ok (none, 0) := by
      simp only [get_ebay_results, if_pos hst]
    have hctv : ∃ tv,
        compute_total_value (blend (avg_of_results none) (avg_of_results sr)) wd.2.2.2 =
          .ok tv := by
      cases htr : truthyQ (blend (avg_of_results none) (avg_of_results sr)) with
      | false => exact ⟨none, by simp [compute_total_value, htr]⟩
      | true =>
        exact ⟨some (round2 ((blend (avg_of_results none) (avg_of_results sr)).getD 0 * (z : ℚ))),
          by simp [compute_total_value, htr, hq]⟩
    obtain ⟨tv, htv⟩ := hctv
    refine ⟨⟨wd.1, wd.2.1, wd.2.2.1, wd.2.2.2, avg_of_results none, avg_of_results sr,
      blend (avg_of_results none) (avg_of_results sr), tv, 0, sp⟩, ?_, rfl, rfl, rfl, rfl⟩
    simp only [process_watch, hga, hgs, htv]
  · intro session wd z ar ap hq hst hga
    have hgs : get_ebay_results session wd.2.1 false = .ok (none, 0) := by
      simp only [get_ebay_results, if_pos hst]
    have hctv : ∃ tv,
        compute_total_value (blend (avg_of_results ar) (avg_of_results none)) wd.2.2.2 =
          .ok tv := by
      cases htr : truthyQ (blend (avg_of_results ar) (avg_of_results none)) with
      | false => exact ⟨none, by simp [compute_total_value, htr]⟩
      | true =>
        exact ⟨some (round2 ((blend (avg_of_results ar) (avg_of_results none)).getD 0 * (z : ℚ))),
          by simp [compute_total_value, htr, hq]⟩
    obtain ⟨tv, htv⟩ := hctv
    refine ⟨⟨wd.1, wd.2.1, wd.2.2.1, wd.2.2.2, avg_of_results ar, avg_of_results none,
      blend (avg_of_results ar) (avg_of_results none), tv, ap, 0⟩, ?_, rfl, rfl, rfl, rfl⟩
    simp only [process_watch, hga, hgs, htv]

/-- C8, witness for the amended claim at a concrete record with quantity
3, a failing sold-filtered fetch and a successful other page. -/
theorem C8_amended_fetch_failure_witness :
    pyInt ("3".toList) = some 3 ∧
    (sessC8 (build_endpoint refGs true)).status_code ≠ 200 ∧
    (∃ info, process_watch sessC8 (wdQ "3") = .ok info ∧ info.avg_active = none ∧
      info.avg_sold = avg_of_results (some [100]) ∧ info.active_posts_found = 0 ∧
      info.sold_posts_found = 1) :=
  ⟨by decide, by decide,
    C8_amended_fetch_failure_recovered.1 sessC8 (wdQ "3") 3 (some [100]) 1
      (by decide) (by decide)
      (by
        simp +decide [get_ebay_results, parse_ebay_results, mapExcept, parse_price, sessC8,
          sessionSplit, watchPost, refGs, build_endpoint, pySplit, pySplitAux, cleanPriceToken,
          pyFloat, splitSign, digitsToNat, round2, pyRound]
        norm_num)⟩

/-- C9, counterexample: the claim says format_watch_reference is
idempotent only for inputs with at most one internal space, failing for
two or more.  The input "a b c" has two internal spaces, formats to
"ab%20c" exactly as the claim describes, and formatting again leaves it
unchanged — so idempotence holds at this 2-space input, refuting the
claimed restriction. -/
theorem C9_two_spaces_still_idempotent :
    format_watch_reference "a b c".toList = "ab%20c".toList ∧
    format_watch_reference (format_watch_reference "a b c".toList) =
      format_watch_reference "a b c".toList := by
  decide

/-- C9, amended: format_watch_reference is idempotent on every input.
Its output never contains a space (the first is removed, the rest become
%20) and never starts or ends with whitespace, so stripping, first-space
removal and space encoding all leave it unchanged. -/
theorem C9_amended_format_idempotent (s : List Char) :
    format_watch_reference (format_watch_reference s) = format_watch_reference s := by
  have hnos : ' ' ∉ format_watch_reference s := space_not_mem_encodeSpaces _
  show encodeSpaces (removeFirstSpace (stripChars (format_watch_reference s))) =
    format_watch_reference s
  rw [stripChars_format_self, removeFirstSpace_of_not_mem hnos, encodeSpaces_of_not_mem hnos]

/-- C10: whenever the extractor returns a pair (prices, post_count), the
count equals the number of candidate fragments of the document —
including fragments rejected by the keyword classification and fragments
whose price failed to parse — and the returned price sequence is no
longer than that count. -/
theorem C10_post_count_counts_candidates (posts : List Post) (prices : List ℚ) (n : ℕ)
    (h : parse_ebay_results posts = .ok (prices, n)) :
    n = posts.length ∧ prices.length ≤ n := by
  unfold parse_ebay_results at h
  by_cases hz : posts.length = 0
  · rw [if_pos (by simp [hz])] at h
    cases h
    simp [hz]
  · rw [if_neg (by simp [hz])] at h
    cases hm : mapExcept parse_price posts with
    | error e => rw [hm] at h; cases h
    | ok pl =>
      rw [hm] at h
      cases h
      refine ⟨rfl, ?_⟩
      calc (pl.filterMap id).length ≤ pl.length := List.length_filterMap_le _ _
        _ = posts.length := mapExcept_ok_length hm

/-- C10, witness: a three-fragment document — one priced watch, one
rejected fragment, one watch with an unparseable price — extracts one
price with all three candidates counted. -/
theorem C10_post_count_witness :
    3 = postsC10.length ∧ ([(100 : ℚ)]).length ≤ 3 :=
  C10_post_count_counts_candidates postsC10 [100] 3 (by
    simp +decide [parse_ebay_results, mapExcept, parse_price, postsC10, watchPost, bandPost,
      pySplit, pySplitAux, cleanPriceToken, pyFloat, splitSign, digitsToNat, round2, pyRound]
    norm_num)

end Swatch
